import Mathlib

/-!
Shallow embedding of the ledger engine in `src/bank_management.py`.

The SQLite database is modelled as a `DB` value: the `accounts` table is a
list of `Account` rows in insertion order, the `transactions` table a list of
`Txn` rows in insertion order, and `next_id` the autoincrement counter for the
transaction surrogate key. Monetary amounts and ages are modelled as integers
(the claims under study are arithmetic-generic and do not depend on REAL
rounding); account numbers are modelled as naturals (the schema stores them
with TEXT affinity but compares them canonically, per §9 of the spec).

Each Python function becomes a state transformer returning the new `DB`
together with a result value describing the message the function reports
(`st.success` / `st.error` branches). `random.randint` inside
`generate_account_number` is modelled by an explicit list of draws: the Python
loop returns the first draw that is absent from the accounts table, and `none`
models the loop never finding a free draw. SQLite-level failures (the
`except sqlite3.Error` branches) are not modelled: they are environment
failures outside the engine logic the claims speak about.
-/

namespace BankManagement

inductive TxnType where
  | Deposit
  | Withdraw
deriving DecidableEq, Repr

structure Txn where
  id : Nat
  account_number : Nat
  transaction_type : TxnType
  amount : Int
deriving DecidableEq, Repr

structure Account where
  account_number : Nat
  name : String
  age : Int
  gender : String
  balance : Int
deriving DecidableEq, Repr

structure DB where
  accounts : List Account
  transactions : List Txn
  next_id : Nat
deriving DecidableEq, Repr

/-- The freshly created database: both tables empty (`CREATE TABLE IF NOT EXISTS`). -/
def dbEmpty : DB := ⟨[], [], 0⟩

/-- `SELECT account_number FROM accounts WHERE account_number = ?` followed by a
truthiness test on `fetchone`, as done in `generate_account_number` and `deposit`. -/
def accountExists (db : DB) (n : Nat) : Bool :=
  db.accounts.any (fun a => a.account_number == n)

/-- `generate_account_number` (lines 27-43): draw random candidates until one is
not present in the accounts table. `draws` is the stream of `random.randint`
results; the function returns the first free draw, `none` if no draw is free
(the Python loop would keep running). -/
def generate_account_number (draws : List Nat) (db : DB) : Option Nat :=
  draws.find? (fun n => !accountExists db n)

/-- `create_account` (lines 46-68): generate a number and
`INSERT INTO accounts (account_number, name, age, gender, balance) VALUES (?, ?, ?, ?, 0)`.
Returns the account number on success. No validation of name, age or gender
happens here. -/
def create_account (db : DB) (draws : List Nat) (name : String) (age : Int)
    (gender : String) : DB × Option Nat :=
  match generate_account_number draws db with
  | some n =>
      ({ db with accounts := db.accounts ++ [⟨n, name, age, gender, 0⟩] }, some n)
  | none => (db, none)

/-- `delete_account` (lines 71-85) always reports "Account deleted successfully!";
there is no error branch for a missing account. -/
inductive DeleteResult where
  | success
deriving DecidableEq, Repr

/-- `delete_account`: `DELETE FROM accounts WHERE account_number = ?`. -/
def delete_account (db : DB) (n : Nat) : DB × DeleteResult :=
  ({ db with accounts := db.accounts.filter (fun a => a.account_number != n) }, .success)

/-- Outcomes of `deposit` (lines 88-110): "Deposit successful!" or
"Account does not exist!". -/
inductive DepositResult where
  | success
  | accountNotFound
deriving DecidableEq, Repr

/-- `deposit`: check existence, then
`UPDATE accounts SET balance = balance + ? WHERE account_number = ?` and
`INSERT INTO transactions (account_number, transaction_type, amount) VALUES (?, 'Deposit', ?)`
committed together. The amount is not validated. -/
def deposit (db : DB) (n : Nat) (amount : Int) : DB × DepositResult :=
  if accountExists db n then
    ({ accounts := db.accounts.map (fun a =>
         if a.account_number == n then { a with balance := a.balance + amount } else a),
       transactions := db.transactions ++ [⟨db.next_id, n, TxnType.Deposit, amount⟩],
       next_id := db.next_id + 1 }, .success)
  else
    (db, .accountNotFound)

/-- `SELECT balance FROM accounts WHERE account_number = ?` with `fetchone`,
as done at the start of `withdraw`: the balance of the first matching row. -/
def getBalance (db : DB) (n : Nat) : Option Int :=
  (db.accounts.find? (fun a => a.account_number == n)).map (fun a => a.balance)

/-- Outcomes of `withdraw` (lines 113-139): "Withdrawal successful!",
"Insufficient balance!" or "Account does not exist!". -/
inductive WithdrawResult where
  | success
  | insufficientBalance
  | accountNotFound
deriving DecidableEq, Repr

/-- `withdraw`: fetch the balance; if the row exists and `balance >= amount`,
`UPDATE accounts SET balance = balance - ? WHERE account_number = ?` and insert
a Withdraw transaction, committed together. The amount is not validated. -/
def withdraw (db : DB) (n : Nat) (amount : Int) : DB × WithdrawResult :=
  match getBalance db n with
  | some balance =>
      if amount ≤ balance then
        ({ accounts := db.accounts.map (fun a =>
             if a.account_number == n then { a with balance := a.balance - amount } else a),
           transactions := db.transactions ++ [⟨db.next_id, n, TxnType.Withdraw, amount⟩],
           next_id := db.next_id + 1 }, .success)
      else
        (db, .insufficientBalance)
  | none => (db, .accountNotFound)

/-- Outcomes of `check_balance` (lines 142-162): the displayed
(name, age, gender, balance) quadruple, or "Account does not exist!". -/
inductive BalanceResult where
  | info (name : String) (age : Int) (gender : String) (balance : Int)
  | accountNotFound
deriving DecidableEq, Repr

/-- `check_balance`: `SELECT name, age, gender, balance FROM accounts WHERE account_number = ?`
and display the first matching row, or report that the account does not exist. -/
def check_balance (db : DB) (n : Nat) : BalanceResult :=
  match db.accounts.find? (fun a => a.account_number == n) with
  | some a => .info a.name a.age a.gender a.balance
  | none => .accountNotFound

/-- `transaction_history` (lines 165-184): the rows fetched by
`SELECT transaction_type, amount FROM transactions WHERE account_number = ?`,
in insertion order. The function then displays these rows, or the message
"No transaction history available!" when the list is empty; the display is
presentation, the fetched data is what we model. -/
def transaction_history (db : DB) (n : Nat) : List (TxnType × Int) :=
  (db.transactions.filter (fun t => t.account_number == n)).map
    (fun t => (t.transaction_type, t.amount))

/-- One engine operation, for stating invariants over operation sequences. -/
inductive Op where
  | createOp (draws : List Nat) (name : String) (age : Int) (gender : String)
  | deleteOp (n : Nat)
  | depositOp (n : Nat) (amount : Int)
  | withdrawOp (n : Nat) (amount : Int)
deriving DecidableEq, Repr

/-- State transition of one operation (result message discarded). -/
def applyOp (db : DB) : Op → DB
  | .createOp draws name age gender => (create_account db draws name age gender).1
  | .deleteOp n => (delete_account db n).1
  | .depositOp n amount => (deposit db n amount).1
  | .withdrawOp n amount => (withdraw db n amount).1

/-- Run a sequence of operations from a starting database. -/
def run (db : DB) (ops : List Op) : DB := ops.foldl applyOp db

/-- An operation whose deposit amount (if it is a deposit) is non-negative. -/
def depositNonneg : Op → Bool
  | .depositOp _ amount => decide (0 ≤ amount)
  | _ => true

/-- The signed contribution of a transaction row to its account's balance. -/
def signedAmount (t : Txn) : Int :=
  match t.transaction_type with
  | .Deposit => t.amount
  | .Withdraw => -t.amount

/-- Sum of Deposit amounts minus sum of Withdraw amounts recorded for account `n`. -/
def netSum (ts : List Txn) (n : Nat) : Int :=
  ((ts.filter (fun t => t.account_number == n)).map signedAmount).sum

/-- A stored account row is consistent: its balance is non-negative and equals
the net transaction sum recorded for its number since some suffix point of the
transaction log (the point of the account's creation). -/
def rowOk (ts : List Txn) (a : Account) : Prop :=
  0 ≤ a.balance ∧
    ∃ k ∈ List.range (ts.length + 1), a.balance = netSum (ts.drop k) a.account_number

/-- The ledger invariant: account numbers are unique, and every account row is
consistent with the transaction log recorded since its creation. -/
def Inv (db : DB) : Prop :=
  (db.accounts.map (fun a => a.account_number)).Nodup ∧
    ∀ a ∈ db.accounts, rowOk db.transactions a

instance (ts : List Txn) (a : Account) : Decidable (rowOk ts a) := by
  unfold rowOk; infer_instance

instance (db : DB) : Decidable (Inv db) := by
  unfold Inv; infer_instance

/-! ### Helper lemmas about the embedded operations -/

/-- The row transformer applied by the `UPDATE accounts SET balance = ...` statements
of `deposit` and `withdraw`. -/
def updBalance (n : Nat) (g : Int → Int) (a : Account) : Account :=
  if a.account_number == n then { a with balance := g a.balance } else a

theorem updBalance_account_number (n : Nat) (g : Int → Int) (a : Account) :
    (updBalance n g a).account_number = a.account_number := by
  unfold updBalance; split <;> rfl

theorem updBalance_of_ne (n : Nat) (g : Int → Int) (a : Account)
    (h : a.account_number ≠ n) : updBalance n g a = a := by
  unfold updBalance; rw [if_neg]; simp [h]

theorem updBalance_of_eq (n : Nat) (g : Int → Int) (a : Account)
    (h : a.account_number = n) : updBalance n g a = { a with balance := g a.balance } := by
  unfold updBalance; rw [if_pos]; simp [h]

theorem deposit_eq_of_exists (db : DB) (n : Nat) (amount : Int)
    (h : accountExists db n = true) :
    deposit db n amount =
      ({ accounts := db.accounts.map (updBalance n (fun b => b + amount)),
         transactions := db.transactions ++ [⟨db.next_id, n, TxnType.Deposit, amount⟩],
         next_id := db.next_id + 1 }, DepositResult.success) := by
  unfold deposit updBalance
  rw [if_pos h]

theorem deposit_eq_of_not_exists (db : DB) (n : Nat) (amount : Int)
    (h : accountExists db n = false) :
    deposit db n amount = (db, DepositResult.accountNotFound) := by
  unfold deposit
  rw [if_neg]
  simp [h]

theorem withdraw_eq_of_le (db : DB) (n : Nat) (amount b : Int)
    (hb : getBalance db n = some b) (hle : amount ≤ b) :
    withdraw db n amount =
      ({ accounts := db.accounts.map (updBalance n (fun x => x - amount)),
         transactions := db.transactions ++ [⟨db.next_id, n, TxnType.Withdraw, amount⟩],
         next_id := db.next_id + 1 }, WithdrawResult.success) := by
  unfold withdraw updBalance
  rw [hb]
  simp only [if_pos hle]

theorem withdraw_eq_of_gt (db : DB) (n : Nat) (amount b : Int)
    (hb : getBalance db n = some b) (hgt : b < amount) :
    withdraw db n amount = (db, WithdrawResult.insufficientBalance) := by
  unfold withdraw
  rw [hb]
  simp only [if_neg (not_le.mpr hgt)]

theorem withdraw_eq_of_none (db : DB) (n : Nat) (amount : Int)
    (hb : getBalance db n = none) :
    withdraw db n amount = (db, WithdrawResult.accountNotFound) := by
  unfold withdraw
  rw [hb]

theorem accountExists_eq_false_iff (db : DB) (n : Nat) :
    accountExists db n = false ↔ ∀ a ∈ db.accounts, a.account_number ≠ n := by
  unfold accountExists
  rw [← Bool.not_eq_true, List.any_eq_true]
  push_neg
  constructor
  · intro h a ha
    have := h a ha
    simpa using this
  · intro h a ha
    simpa using h a ha

theorem accountExists_of_getBalance (db : DB) (n : Nat) (b : Int)
    (hb : getBalance db n = some b) : accountExists db n = true := by
  unfold getBalance at hb
  cases hfind : db.accounts.find? (fun a => a.account_number == n) with
  | none => rw [hfind] at hb; simp at hb
  | some a =>
      unfold accountExists
      rw [List.any_eq_true]
      refine ⟨a, List.mem_of_find?_eq_some hfind, ?_⟩
      have hp := List.find?_some hfind
      simpa using hp

theorem netSum_append (ts us : List Txn) (n : Nat) :
    netSum (ts ++ us) n = netSum ts n + netSum us n := by
  unfold netSum
  rw [List.filter_append, List.map_append, List.sum_append]

theorem netSum_single_eq (t : Txn) (n : Nat) (h : t.account_number = n) :
    netSum [t] n = signedAmount t := by
  unfold netSum
  simp [List.filter, h]

theorem netSum_single_ne (t : Txn) (n : Nat) (h : t.account_number ≠ n) :
    netSum [t] n = 0 := by
  unfold netSum
  have hb : (t.account_number == n) = false := by simp [h]
  simp [List.filter, hb]

theorem filter_map_eq_filter {α : Type} (f : α → α) (p : α → Bool) (l : List α)
    (h1 : ∀ a, p (f a) = p a) (h2 : ∀ a, p a = true → f a = a) :
    (l.map f).filter p = l.filter p := by
  induction l with
  | nil => rfl
  | cons x xs ih =>
      simp only [List.map_cons, List.filter_cons, h1 x]
      by_cases hx : p x = true
      · rw [if_pos hx, if_pos hx, h2 x hx, ih]
      · rw [if_neg hx, if_neg hx, ih]

theorem filter_append_single_ne {α : Type} (p : α → Bool) (l : List α) (x : α)
    (h : p x = false) : (l ++ [x]).filter p = l.filter p := by
  rw [List.filter_append]
  simp [List.filter, h]

theorem find?_map_updBalance (as : List Account) (n m : Nat) (g : Int → Int) :
    (as.map (updBalance n g)).find? (fun a => a.account_number == m)
      = (as.find? (fun a => a.account_number == m)).map (updBalance n g) := by
  induction as with
  | nil => rfl
  | cons x xs ih =>
      by_cases hx : x.account_number = m
      · have h1 : ((updBalance n g x).account_number == m) = true := by
          rw [updBalance_account_number]; simp [hx]
        have h2 : (x.account_number == m) = true := by simp [hx]
        simp [List.find?, h1, h2]
      · have h1 : ((updBalance n g x).account_number == m) = false := by
          rw [updBalance_account_number]; simp [hx]
        have h2 : (x.account_number == m) = false := by simp [hx]
        simp [List.find?, h1, h2, ih]

theorem find?_account_of_nodup (as : List Account) (a : Account) (n : Nat)
    (hnd : (as.map (fun x => x.account_number)).Nodup) (ha : a ∈ as)
    (hn : a.account_number = n) :
    as.find? (fun x => x.account_number == n) = some a := by
  induction as with
  | nil => cases ha
  | cons b bs ih =>
      rw [List.map_cons, List.nodup_cons] at hnd
      rcases List.mem_cons.mp ha with rfl | hmem
      · have h2 : (a.account_number == n) = true := by simp [hn]
        simp [List.find?, h2]
      · have hbn : b.account_number ≠ n := by
          intro hbn
          exact hnd.1 (hbn ▸ hn ▸ List.mem_map_of_mem (fun x => x.account_number) hmem)
        have h2 : (b.account_number == n) = false := by simp [hbn]
        simp [List.find?, h2]
        exact ih hnd.2 hmem

theorem create_eq_of_gen (db : DB) (draws : List Nat) (name : String) (age : Int)
    (gender : String) (n : Nat) (hgen : generate_account_number draws db = some n) :
    create_account db draws name age gender
      = ({ db with accounts := db.accounts ++ [⟨n, name, age, gender, 0⟩] }, some n) := by
  unfold create_account
  rw [hgen]

theorem create_eq_of_none (db : DB) (draws : List Nat) (name : String) (age : Int)
    (gender : String) (hgen : generate_account_number draws db = none) :
    create_account db draws name age gender = (db, none) := by
  unfold create_account
  rw [hgen]

theorem generate_not_exists (draws : List Nat) (db : DB) (n : Nat)
    (h : generate_account_number draws db = some n) : accountExists db n = false := by
  unfold generate_account_number at h
  have hp := List.find?_some h
  simpa using hp

theorem generate_mem (draws : List Nat) (db : DB) (n : Nat)
    (h : generate_account_number draws db = some n) : n ∈ draws := by
  unfold generate_account_number at h
  exact List.mem_of_find?_eq_some h

theorem map_updBalance_account_numbers (as : List Account) (n : Nat) (g : Int → Int) :
    (as.map (updBalance n g)).map (fun a => a.account_number)
      = as.map (fun a => a.account_number) := by
  rw [List.map_map]
  apply List.map_congr_left
  intro a _
  exact updBalance_account_number n g a

theorem nodup_map_updBalance (as : List Account) (n : Nat) (g : Int → Int)
    (h : (as.map (fun a => a.account_number)).Nodup) :
    ((as.map (updBalance n g)).map (fun a => a.account_number)).Nodup := by
  rw [map_updBalance_account_numbers]
  exact h

theorem getBalance_after_update (db : DB) (n : Nat) (g : Int → Int) (b : Int)
    (hb : getBalance db n = some b) (ts2 : List Txn) (k2 : Nat) :
    getBalance ⟨db.accounts.map (updBalance n g), ts2, k2⟩ n = some (g b) := by
  unfold getBalance at hb ⊢
  cases hfind : db.accounts.find? (fun a => a.account_number == n) with
  | none => rw [hfind] at hb; simp at hb
  | some a =>
      rw [hfind] at hb
      simp only [Option.map_some'] at hb
      have hpa := List.find?_some hfind
      have han : a.account_number = n := by simpa using hpa
      show ((db.accounts.map (updBalance n g)).find?
        (fun a => a.account_number == n)).map (fun a => a.balance) = some (g b)
      rw [find?_map_updBalance, hfind]
      simp only [Option.map_some']
      rw [updBalance_of_eq n g a han]
      have hab : a.balance = b := by simpa using hb
      simp [hab]

/-- A consistent row stays consistent when a transaction for a different
account is appended to the log. -/
theorem rowOk_append_other (ts : List Txn) (t : Txn) (a : Account)
    (h : rowOk ts a) (ht : t.account_number ≠ a.account_number) :
    rowOk (ts ++ [t]) a := by
  obtain ⟨hnn, k, hk, hsum⟩ := h
  rw [List.mem_range] at hk
  refine ⟨hnn, k, ?_, ?_⟩
  · rw [List.mem_range]
    simp only [List.length_append, List.length_cons, List.length_nil]
    omega
  · rw [List.drop_append_of_le_length (by omega), netSum_append,
      netSum_single_ne t _ ht, hsum, add_zero]

/-- A consistent row stays consistent when a transaction for its own account is
appended to the log and the balance moves by the transaction's signed amount. -/
theorem rowOk_update_append (ts : List Txn) (t : Txn) (a : Account) (b2 : Int)
    (h : rowOk ts a) (ht : t.account_number = a.account_number)
    (hb2 : b2 = a.balance + signedAmount t) (hpos : 0 ≤ b2) :
    rowOk (ts ++ [t]) { a with balance := b2 } := by
  obtain ⟨hnn, k, hk, hsum⟩ := h
  rw [List.mem_range] at hk
  refine ⟨hpos, k, ?_, ?_⟩
  · rw [List.mem_range]
    simp only [List.length_append, List.length_cons, List.length_nil]
    omega
  · show b2 = netSum ((ts ++ [t]).drop k) a.account_number
    rw [List.drop_append_of_le_length (by omega), netSum_append,
      netSum_single_eq t _ ht, ← hsum, hb2]

theorem inv_create (db : DB) (draws : List Nat) (name : String) (age : Int)
    (gender : String) (h : Inv db) : Inv (create_account db draws name age gender).1 := by
  cases hgen : generate_account_number draws db with
  | none => rw [create_eq_of_none db draws name age gender hgen]; exact h
  | some n =>
      rw [create_eq_of_gen db draws name age gender n hgen]
      obtain ⟨hnd, hrows⟩ := h
      have hall := (accountExists_eq_false_iff db n).mp (generate_not_exists draws db n hgen)
      refine ⟨?_, ?_⟩
      · rw [List.map_append, List.nodup_append]
        refine ⟨hnd, by simp, ?_⟩
        intro x hx hxmem
        rw [List.mem_map] at hx
        obtain ⟨a, ha, rfl⟩ := hx
        have hxn : a.account_number = n := by simpa using hxmem
        exact hall a ha hxn
      · intro a ha
        rcases List.mem_append.mp ha with hmem | hnew
        · exact hrows a hmem
        · have ha2 : a = ⟨n, name, age, gender, 0⟩ := by simpa using hnew
          subst ha2
          refine ⟨le_refl 0, db.transactions.length, ?_, ?_⟩
          · simp [List.mem_range]
          · show (0 : Int) = netSum (db.transactions.drop db.transactions.length) n
            rw [List.drop_length]
            rfl

theorem inv_delete (db : DB) (n : Nat) (h : Inv db) : Inv (delete_account db n).1 := by
  obtain ⟨hnd, hrows⟩ := h
  refine ⟨?_, ?_⟩
  · have hs : List.Sublist (db.accounts.filter (fun a => a.account_number != n))
        db.accounts := List.filter_sublist db.accounts
    exact List.Nodup.sublist (List.Sublist.map _ hs) hnd
  · intro a ha
    exact hrows a (List.mem_of_mem_filter ha)

theorem inv_deposit (db : DB) (n : Nat) (amount : Int) (hamt : 0 ≤ amount)
    (h : Inv db) : Inv (deposit db n amount).1 := by
  cases hex : accountExists db n with
  | false => rw [deposit_eq_of_not_exists db n amount hex]; exact h
  | true =>
      rw [deposit_eq_of_exists db n amount hex]
      obtain ⟨hnd, hrows⟩ := h
      refine ⟨nodup_map_updBalance _ _ _ hnd, ?_⟩
      intro a2 ha2
      rw [List.mem_map] at ha2
      obtain ⟨a, ha, rfl⟩ := ha2
      by_cases han : a.account_number = n
      · rw [updBalance_of_eq _ _ _ han]
        refine rowOk_update_append _ _ _ _ (hrows a ha) han.symm rfl ?_
        have h0 := (hrows a ha).1
        omega
      · rw [updBalance_of_ne _ _ _ han]
        exact rowOk_append_other _ _ _ (hrows a ha) (fun hc => han hc.symm)

theorem inv_withdraw (db : DB) (n : Nat) (amount : Int) (h : Inv db) :
    Inv (withdraw db n amount).1 := by
  cases hb : getBalance db n with
  | none => rw [withdraw_eq_of_none db n amount hb]; exact h
  | some b =>
      by_cases hle : amount ≤ b
      · rw [withdraw_eq_of_le db n amount b hb hle]
        obtain ⟨hnd, hrows⟩ := h
        refine ⟨nodup_map_updBalance _ _ _ hnd, ?_⟩
        intro a2 ha2
        rw [List.mem_map] at ha2
        obtain ⟨a, ha, rfl⟩ := ha2
        by_cases han : a.account_number = n
        · have hfind : db.accounts.find? (fun x => x.account_number == n) = some a :=
            find?_account_of_nodup db.accounts a n hnd ha han
          have hab : a.balance = b := by
            unfold getBalance at hb
            rw [hfind] at hb
            simpa using hb
          rw [updBalance_of_eq _ _ _ han]
          refine rowOk_update_append _ _ _ _ (hrows a ha) han.symm ?_ ?_
          · show a.balance - amount = a.balance + -amount
            ring
          · omega
        · rw [updBalance_of_ne _ _ _ han]
          exact rowOk_append_other _ _ _ (hrows a ha) (fun hc => han hc.symm)
      · rw [withdraw_eq_of_gt db n amount b hb (not_le.mp hle)]; exact h

theorem inv_applyOp (db : DB) (op : Op) (h : Inv db) (hop : depositNonneg op = true) :
    Inv (applyOp db op) := by
  cases op with
  | createOp draws name age gender => exact inv_create db draws name age gender h
  | deleteOp n => exact inv_delete db n h
  | depositOp n amount =>
      have hamt : 0 ≤ amount := by
        unfold depositNonneg at hop
        exact of_decide_eq_true hop
      exact inv_deposit db n amount hamt h
  | withdrawOp n amount => exact inv_withdraw db n amount h

theorem inv_run (db : DB) (ops : List Op) (h : Inv db)
    (hops : ∀ op ∈ ops, depositNonneg op = true) : Inv (run db ops) := by
  induction ops generalizing db with
  | nil => exact h
  | cons o os ih =>
      exact ih (applyOp db o) (inv_applyOp db o h (hops o (List.mem_cons_self o os)))
        (fun op hop => hops op (List.mem_cons_of_mem o hop))

theorem filter_accounts_updBalance (as : List Account) (nA nB : Nat) (g : Int → Int)
    (hne : nB ≠ nA) :
    (as.map (updBalance nA g)).filter (fun a => a.account_number == nB)
      = as.filter (fun a => a.account_number == nB) := by
  apply filter_map_eq_filter
  · intro a
    rw [updBalance_account_number]
  · intro a hpa
    have hB : a.account_number = nB := by simpa using hpa
    exact updBalance_of_ne nA g a (by rw [hB]; exact hne)

theorem filter_txns_append_ne (ts : List Txn) (t : Txn) (nB : Nat)
    (hne : t.account_number ≠ nB) :
    (ts ++ [t]).filter (fun x => x.account_number == nB)
      = ts.filter (fun x => x.account_number == nB) :=
  filter_append_single_ne _ ts t (by simp [hne])

/-! ### Claims -/

/-- Claim C1, corrected part: the claim asserts the balance is never negative as
an invariant preserved by every engine operation from the initial balance 0, but
`deposit` does not validate its amount: starting from the fresh database,
creating an account and depositing -5 leaves it with balance -5, violating
non-negativity (the net-sum bookkeeping itself still holds at that state). -/
theorem deposit_negative_breaks_nonneg :
    getBalance (run dbEmpty
        [Op.createOp [10000000] "Alice" 30 "Female", Op.depositOp 10000000 (-5)])
      10000000 = some (-5) ∧
    ¬ Inv (run dbEmpty
        [Op.createOp [10000000] "Alice" 30 "Female", Op.depositOp 10000000 (-5)]) := by
  decide

/-- Claim C1, amended: starting from the fresh database, after any sequence of
engine operations in which every deposit amount is non-negative, account numbers
are unique and every stored account's balance is non-negative and equals the sum
of Deposit amounts minus Withdraw amounts recorded for its number since its
creation point in the transaction log. (Without the non-negative-deposit
restriction the unvalidated `deposit` can drive a balance negative.) -/
theorem balance_is_net_transaction_sum (ops : List Op)
    (hops : ∀ op ∈ ops, depositNonneg op = true) :
    Inv (run dbEmpty ops) :=
  inv_run dbEmpty ops (by decide) hops

/-- Claim C1 witness: the invariant holds after a concrete create / deposit 100 /
withdraw 40 run. -/
theorem balance_is_net_transaction_sum_witness :
    (∀ op ∈ [Op.createOp [10000000] "Alice" 30 "Female", Op.depositOp 10000000 100,
        Op.withdrawOp 10000000 40], depositNonneg op = true) ∧
      Inv (run dbEmpty [Op.createOp [10000000] "Alice" 30 "Female",
        Op.depositOp 10000000 100, Op.withdrawOp 10000000 40]) :=
  ⟨by decide, balance_is_net_transaction_sum _ (by decide)⟩

/-- Claim C2, corrected part: the claim asserts that a non-positive amount makes
Deposit and Withdraw fail with a validation error, leaving state unchanged; but
on an account with balance 0, depositing -5 reports success, inserts a Deposit
record of -5, and sets the balance to -5, and withdrawing -5 likewise reports
success and inserts a Withdraw record of -5. -/
theorem nonpositive_amount_accepted :
    (deposit ⟨[⟨10000000, "Alice", 30, "Female", 0⟩], [], 0⟩ 10000000 (-5)).2
        = DepositResult.success ∧
      (deposit ⟨[⟨10000000, "Alice", 30, "Female", 0⟩], [], 0⟩ 10000000 (-5)).1.transactions
        = [⟨0, 10000000, TxnType.Deposit, -5⟩] ∧
      getBalance (deposit ⟨[⟨10000000, "Alice", 30, "Female", 0⟩], [], 0⟩ 10000000 (-5)).1
        10000000 = some (-5) ∧
      (withdraw ⟨[⟨10000000, "Alice", 30, "Female", 0⟩], [], 0⟩ 10000000 (-5)).2
        = WithdrawResult.success := by
  decide

/-- Claim C2, amended: the engine performs no amount validation. For an existing
account with balance `b` and any amount `≤ 0` (indeed any amount at all, for
deposit; any amount `≤ b`, for withdraw), `deposit` reports success, adds the
amount to the balance and inserts a Deposit record, and `withdraw` reports
success, subtracts the amount and inserts a Withdraw record; no validation
error exists in the code. -/
theorem no_amount_validation (db : DB) (n : Nat) (b amount : Int)
    (hb : getBalance db n = some b) (_hneg : amount ≤ 0) (hle : amount ≤ b) :
    (deposit db n amount).2 = DepositResult.success ∧
      (deposit db n amount).1.transactions
        = db.transactions ++ [⟨db.next_id, n, TxnType.Deposit, amount⟩] ∧
      getBalance (deposit db n amount).1 n = some (b + amount) ∧
      (withdraw db n amount).2 = WithdrawResult.success ∧
      (withdraw db n amount).1.transactions
        = db.transactions ++ [⟨db.next_id, n, TxnType.Withdraw, amount⟩] ∧
      getBalance (withdraw db n amount).1 n = some (b - amount) := by
  have hex := accountExists_of_getBalance db n b hb
  rw [deposit_eq_of_exists db n amount hex, withdraw_eq_of_le db n amount b hb hle]
  exact ⟨rfl, rfl, getBalance_after_update db n (fun x => x + amount) b hb _ _,
    rfl, rfl, getBalance_after_update db n (fun x => x - amount) b hb _ _⟩

/-- Claim C2 amended witness: on balance 0, amount -5 is accepted by both
operations. -/
theorem no_amount_validation_witness :
    getBalance ⟨[⟨10000000, "Alice", 30, "Female", 0⟩], [], 0⟩ 10000000 = some 0 ∧
      (-5 : Int) ≤ 0 ∧ (-5 : Int) ≤ 0 ∧
      getBalance (deposit ⟨[⟨10000000, "Alice", 30, "Female", 0⟩], [], 0⟩ 10000000 (-5)).1
        10000000 = some (0 + -5) :=
  ⟨by decide, by decide, by decide,
    (no_amount_validation ⟨[⟨10000000, "Alice", 30, "Female", 0⟩], [], 0⟩ 10000000 0 (-5)
      (by decide) (by decide) (by decide)).2.2.1⟩

/-- Claim C3: for an existing account with balance `b` and a withdrawal amount
strictly greater than `b`, `withdraw` reports "Insufficient balance!", leaves
the whole database (hence the balance) unchanged, and inserts no transaction
record. -/
theorem withdraw_insufficient_funds (db : DB) (n : Nat) (b amount : Int)
    (hb : getBalance db n = some b) (hgt : b < amount) :
    (withdraw db n amount).1 = db ∧
      (withdraw db n amount).2 = WithdrawResult.insufficientBalance ∧
      getBalance (withdraw db n amount).1 n = some b := by
  rw [withdraw_eq_of_gt db n amount b hb hgt]
  exact ⟨rfl, rfl, hb⟩

/-- Claim C3 witness: balance 50, withdraw 100 — error, balance still 50. -/
theorem withdraw_insufficient_funds_witness :
    getBalance ⟨[⟨10000000, "Alice", 30, "Female", 50⟩], [], 0⟩ 10000000 = some 50 ∧
      (50 : Int) < 100 ∧
      (withdraw ⟨[⟨10000000, "Alice", 30, "Female", 50⟩], [], 0⟩ 10000000 100).1
        = ⟨[⟨10000000, "Alice", 30, "Female", 50⟩], [], 0⟩ :=
  ⟨by decide, by decide,
    (withdraw_insufficient_funds ⟨[⟨10000000, "Alice", 30, "Female", 50⟩], [], 0⟩
      10000000 50 100 (by decide) (by decide)).1⟩

/-- Claim C4, corrected part: the claim asserts `create_account` rejects an
empty name or age below 16 with a validation error and inserts nothing; but
with name "" and age 10 it inserts the row and returns the account number —
the function performs no validation (the age ≥ 16 floor exists only in the
Streamlit input widget, outside the engine). -/
theorem create_accepts_invalid_input :
    (create_account dbEmpty [10000000] "" 10 "Other").2 = some 10000000 ∧
      (create_account dbEmpty [10000000] "" 10 "Other").1.accounts
        = [⟨10000000, "", 10, "Other", 0⟩] := by
  decide

/-- Claim C4, amended: `create_account` validates nothing: for every name
(including the empty string), every age (including ages below 16) and every
gender, whenever the identifier generator yields a number the account row is
inserted with balance 0 and the number is returned. -/
theorem create_no_validation (db : DB) (draws : List Nat) (name gender : String)
    (age : Int) (n : Nat) (hgen : generate_account_number draws db = some n) :
    (create_account db draws name age gender).2 = some n ∧
      (create_account db draws name age gender).1.accounts
        = db.accounts ++ [⟨n, name, age, gender, 0⟩] := by
  rw [create_eq_of_gen db draws name age gender n hgen]
  exact ⟨rfl, rfl⟩

/-- Claim C4 amended witness: empty name and age 10 are accepted. -/
theorem create_no_validation_witness :
    generate_account_number [10000000] dbEmpty = some 10000000 ∧
      (create_account dbEmpty [10000000] "" 10 "Other").2 = some 10000000 :=
  ⟨by decide, (create_no_validation dbEmpty [10000000] "" "Other" 10 10000000 (by decide)).1⟩

/-- Claim C5, corrected part: the claim asserts deleting an unknown identifier
fails with a not-found error; but `delete_account` has no such branch — on the
empty database it reports success and leaves the database unchanged. -/
theorem delete_unknown_reports_success :
    delete_account dbEmpty 12345678 = (dbEmpty, DeleteResult.success) := by
  decide

/-- Claim C5, amended: `delete_account` always reports success. On an
identifier with no existing account it is a silent no-op (no NotFoundError);
on an existing identifier it removes the account, so a subsequent
`check_balance` reports that the account does not exist. -/
theorem delete_account_behaviour (db : DB) (n : Nat) :
    (delete_account db n).2 = DeleteResult.success ∧
      (accountExists db n = false → (delete_account db n).1 = db) ∧
      (accountExists db n = true →
        check_balance (delete_account db n).1 n = BalanceResult.accountNotFound) := by
  refine ⟨rfl, ?_, ?_⟩
  · intro hne
    have hall := (accountExists_eq_false_iff db n).mp hne
    show { db with accounts := db.accounts.filter (fun a => a.account_number != n) } = db
    have hfe : db.accounts.filter (fun a => a.account_number != n) = db.accounts := by
      rw [List.filter_eq_self]
      intro a ha
      simpa using hall a ha
    rw [hfe]
  · intro _
    show check_balance
      { db with accounts := db.accounts.filter (fun a => a.account_number != n) } n
        = BalanceResult.accountNotFound
    unfold check_balance
    have hfn : (db.accounts.filter (fun a => a.account_number != n)).find?
        (fun a => a.account_number == n) = none := by
      rw [List.find?_eq_none]
      intro a ha
      have hmem := (List.mem_filter.mp ha).2
      simp at hmem ⊢
      exact hmem
    rw [hfn]

/-- Claim C5 amended witness: deleting absent identifier 1 from the empty
database is a no-op, and after deleting an existing account its balance lookup
fails. -/
theorem delete_account_behaviour_witness :
    (delete_account dbEmpty 1).1 = dbEmpty ∧
      check_balance (delete_account ⟨[⟨10000000, "Alice", 30, "Female", 0⟩], [], 0⟩
        10000000).1 10000000 = BalanceResult.accountNotFound :=
  ⟨(delete_account_behaviour dbEmpty 1).2.1 (by decide),
    (delete_account_behaviour ⟨[⟨10000000, "Alice", 30, "Female", 0⟩], [], 0⟩
      10000000).2.2 (by decide)⟩

/-- Claim C6: for valid input (non-empty name, age ≥ 16), if every candidate
drawn by the generator lies in [10000000, 99999999] (the contract of
`random.randint(10000000, 99999999)`) and `create_account` returns an account
number, then that number lies in [10000000, 99999999], belonged to no existing
account before the call, and the newly inserted row carries balance 0. -/
theorem create_fresh_identifier (db : DB) (draws : List Nat) (name gender : String)
    (age : Int) (n : Nat)
    (hrange : ∀ d ∈ draws, 10000000 ≤ d ∧ d ≤ 99999999)
    (_hname : name ≠ "") (_hage : 16 ≤ age)
    (hgen : (create_account db draws name age gender).2 = some n) :
    (10000000 ≤ n ∧ n ≤ 99999999) ∧ accountExists db n = false ∧
      (⟨n, name, age, gender, 0⟩ : Account)
        ∈ (create_account db draws name age gender).1.accounts := by
  cases hg : generate_account_number draws db with
  | none =>
      rw [create_eq_of_none db draws name age gender hg] at hgen
      simp at hgen
  | some m =>
      rw [create_eq_of_gen db draws name age gender m hg] at hgen ⊢
      have hmn : m = n := by simpa using hgen
      subst hmn
      refine ⟨hrange m (generate_mem draws db m hg),
        generate_not_exists draws db m hg, ?_⟩
      simp

/-- Claim C6 witness at a concrete valid creation. -/
theorem create_fresh_identifier_witness :
    (∀ d ∈ [10000000], 10000000 ≤ d ∧ d ≤ 99999999) ∧
      ("Alice" ≠ "") ∧ (16 : Int) ≤ 30 ∧
      (create_account dbEmpty [10000000] "Alice" 30 "Female").2 = some 10000000 ∧
      accountExists dbEmpty 10000000 = false :=
  ⟨by decide, by decide, by decide, by decide,
    (create_fresh_identifier dbEmpty [10000000] "Alice" "Female" 30 10000000
      (by decide) (by decide) (by decide) (by decide)).2.1⟩

/-- Claim C7: a successful deposit on an existing account with balance `b`
reports success, sets the balance to `b + amount`, and appends exactly one
Deposit record of that amount; both effects are parts of the one returned
database state, so neither is visible without the other. -/
theorem deposit_updates_balance_and_history (db : DB) (n : Nat) (b amount : Int)
    (hb : getBalance db n = some b) :
    (deposit db n amount).2 = DepositResult.success ∧
      getBalance (deposit db n amount).1 n = some (b + amount) ∧
      (deposit db n amount).1.transactions
        = db.transactions ++ [⟨db.next_id, n, TxnType.Deposit, amount⟩] := by
  have hex := accountExists_of_getBalance db n b hb
  rw [deposit_eq_of_exists db n amount hex]
  exact ⟨rfl, getBalance_after_update db n (fun x => x + amount) b hb _ _, rfl⟩

/-- Claim C7 witness: deposit 100 on balance 0 gives balance 100 and one record. -/
theorem deposit_updates_balance_and_history_witness :
    getBalance ⟨[⟨10000000, "Alice", 30, "Female", 0⟩], [], 0⟩ 10000000 = some 0 ∧
      getBalance (deposit ⟨[⟨10000000, "Alice", 30, "Female", 0⟩], [], 0⟩
        10000000 100).1 10000000 = some (0 + 100) :=
  ⟨by decide,
    (deposit_updates_balance_and_history ⟨[⟨10000000, "Alice", 30, "Female", 0⟩], [], 0⟩
      10000000 0 100 (by decide)).2.1⟩

/-- Claim C8: `transaction_history` is the fetched (type, amount) row sequence,
in insertion order. When no transaction carries the requested number the result
is the empty sequence, and the result never depends on the accounts table at
all, so an existing account without transactions and a non-existent account are
indistinguishable to this operation. -/
theorem history_empty_and_ignores_accounts (db : DB) (as2 : List Account) (n : Nat)
    (hnone : db.transactions.filter (fun t => t.account_number == n) = []) :
    transaction_history db n = [] ∧
      transaction_history ⟨as2, db.transactions, db.next_id⟩ n
        = transaction_history db n := by
  constructor
  · unfold transaction_history
    rw [hnone]
    rfl
  · rfl

/-- Claim C8 witness: an account with no transactions, and the same database
with the accounts table emptied, both yield the empty history. -/
theorem history_empty_and_ignores_accounts_witness :
    (⟨[⟨10000000, "Alice", 30, "Female", 0⟩], [], 0⟩ : DB).transactions.filter
        (fun t => t.account_number == 10000000) = [] ∧
      transaction_history ⟨[⟨10000000, "Alice", 30, "Female", 0⟩], [], 0⟩ 10000000 = [] :=
  ⟨by decide,
    (history_empty_and_ignores_accounts ⟨[⟨10000000, "Alice", 30, "Female", 0⟩], [], 0⟩
      [] 10000000 (by decide)).1⟩

/-- Claim C9: deleting an existing account removes only rows of the accounts
table carrying that number: the transactions table is untouched (the deleted
account's own history survives verbatim) and every other account's row is
still present unchanged; conversely every surviving row was already there and
does not carry the deleted number. -/
theorem delete_only_account_row (db : DB) (n : Nat) (_hex : accountExists db n = true) :
    (delete_account db n).1.transactions = db.transactions ∧
      transaction_history (delete_account db n).1 n = transaction_history db n ∧
      (∀ a ∈ db.accounts, a.account_number ≠ n → a ∈ (delete_account db n).1.accounts) ∧
      (∀ a ∈ (delete_account db n).1.accounts, a ∈ db.accounts ∧ a.account_number ≠ n) := by
  have hacc : (delete_account db n).1.accounts
      = db.accounts.filter (fun a => a.account_number != n) := rfl
  refine ⟨rfl, rfl, ?_, ?_⟩
  · intro a ha hne
    rw [hacc, List.mem_filter]
    exact ⟨ha, by simpa using hne⟩
  · intro a ha
    rw [hacc, List.mem_filter] at ha
    exact ⟨ha.1, by simpa using ha.2⟩

/-- Claim C9 witness: deleting one of two accounts keeps its history row and
the other account. -/
theorem delete_only_account_row_witness :
    accountExists ⟨[⟨10000000, "Alice", 30, "Female", 5⟩, ⟨20000000, "Bob", 40, "Male", 7⟩],
        [⟨0, 10000000, TxnType.Deposit, 5⟩], 1⟩ 10000000 = true ∧
      (delete_account ⟨[⟨10000000, "Alice", 30, "Female", 5⟩,
        ⟨20000000, "Bob", 40, "Male", 7⟩], [⟨0, 10000000, TxnType.Deposit, 5⟩], 1⟩
        10000000).1.transactions = [⟨0, 10000000, TxnType.Deposit, 5⟩] :=
  ⟨by decide,
    ((delete_only_account_row ⟨[⟨10000000, "Alice", 30, "Female", 5⟩,
        ⟨20000000, "Bob", 40, "Male", 7⟩], [⟨0, 10000000, TxnType.Deposit, 5⟩], 1⟩
      10000000 (by decide)).1).trans (by decide)⟩

/-- Claim C10: a deposit or withdrawal targeting account `nA` changes no
accounts-table row carrying a different number `nB` (so name, age, gender and
balance of every such row are untouched) and inserts no transaction record
carrying `nB`. -/
theorem mutation_frames_other_accounts (db : DB) (nA nB : Nat) (amount : Int)
    (hne : nB ≠ nA) :
    ((deposit db nA amount).1.accounts.filter (fun a => a.account_number == nB)
        = db.accounts.filter (fun a => a.account_number == nB)) ∧
      ((deposit db nA amount).1.transactions.filter (fun t => t.account_number == nB)
        = db.transactions.filter (fun t => t.account_number == nB)) ∧
      ((withdraw db nA amount).1.accounts.filter (fun a => a.account_number == nB)
        = db.accounts.filter (fun a => a.account_number == nB)) ∧
      ((withdraw db nA amount).1.transactions.filter (fun t => t.account_number == nB)
        = db.transactions.filter (fun t => t.account_number == nB)) := by
  have hdep : ((deposit db nA amount).1.accounts.filter (fun a => a.account_number == nB)
        = db.accounts.filter (fun a => a.account_number == nB)) ∧
      ((deposit db nA amount).1.transactions.filter (fun t => t.account_number == nB)
        = db.transactions.filter (fun t => t.account_number == nB)) := by
    cases hex : accountExists db nA with
    | false =>
        rw [deposit_eq_of_not_exists db nA amount hex]
        exact ⟨rfl, rfl⟩
    | true =>
        rw [deposit_eq_of_exists db nA amount hex]
        exact ⟨filter_accounts_updBalance _ _ _ _ hne,
          filter_txns_append_ne _ _ _ (Ne.symm hne)⟩
  have hwd : ((withdraw db nA amount).1.accounts.filter (fun a => a.account_number == nB)
        = db.accounts.filter (fun a => a.account_number == nB)) ∧
      ((withdraw db nA amount).1.transactions.filter (fun t => t.account_number == nB)
        = db.transactions.filter (fun t => t.account_number == nB)) := by
    cases hb : getBalance db nA with
    | none =>
        rw [withdraw_eq_of_none db nA amount hb]
        exact ⟨rfl, rfl⟩
    | some b =>
        by_cases hle : amount ≤ b
        · rw [withdraw_eq_of_le db nA amount b hb hle]
          exact ⟨filter_accounts_updBalance _ _ _ _ hne,
            filter_txns_append_ne _ _ _ (Ne.symm hne)⟩
        · rw [withdraw_eq_of_gt db nA amount b hb (not_le.mp hle)]
          exact ⟨rfl, rfl⟩
  exact ⟨hdep.1, hdep.2, hwd.1, hwd.2⟩

/-- Claim C10 witness: depositing to Alice's account leaves Bob's row and
record set untouched. -/
theorem mutation_frames_other_accounts_witness :
    (20000000 : Nat) ≠ 10000000 ∧
      (deposit ⟨[⟨10000000, "Alice", 30, "Female", 5⟩, ⟨20000000, "Bob", 40, "Male", 7⟩],
          [], 0⟩ 10000000 3).1.accounts.filter (fun a => a.account_number == 20000000)
        = [⟨20000000, "Bob", 40, "Male", 7⟩] :=
  ⟨by decide,
    ((mutation_frames_other_accounts ⟨[⟨10000000, "Alice", 30, "Female", 5⟩,
        ⟨20000000, "Bob", 40, "Male", 7⟩], [], 0⟩ 10000000 20000000 3
      (by decide)).1).trans (by decide)⟩

end BankManagement
